import Mathlib

/-!
# Verification of the moby image & layer management core

Shallow embedding of `daemon/images/image_commit.go`,
`daemon/images/service.go` and
`daemon/internal/builder-next/worker/worker.go`, with theorems checking
the natural-language specification against the code.
-/

instance exceptDecEq {ε α : Type} [DecidableEq ε] [DecidableEq α] :
    DecidableEq (Except ε α)
  | .ok a, .ok b =>
    if h : a = b then .isTrue (by rw [h]) else .isFalse (by simp [h])
  | .ok _, .error _ => .isFalse (by simp)
  | .error _, .ok _ => .isFalse (by simp)
  | .error e, .error f =>
    if h : e = f then .isTrue (by rw [h]) else .isFalse (by simp [h])

namespace Moby

/-- A diff ID: content hash of a single uncompressed filesystem diff. -/
abbrev DiffID := String

/-- An image ID. -/
abbrev ImageID := String

/-- A chain ID uniquely reconstructs the ordered sequence of diff IDs from
root to leaf (spec §3 invariant), so we embed it as that sequence; the empty
chain (Go's `layer.ChainID("")`) is the empty list. -/
abbrev ChainID := List DiffID

/-- Image metadata as far as `CommitImage`, `CreateLayer` and disk usage
consult it: the root filesystem's ordered diff IDs (`img.RootFS`); its chain
ID is `ChainID` of the whole list. -/
structure Image where
  rootFS : ChainID
  deriving Repr, DecidableEq

/-- `image.NewRootFS()`: a fresh root filesystem with no layers, whose chain
ID is the empty chain. -/
def NewRootFS : ChainID := []

/-- The fields of `backend.CommitConfig` that `CommitImage` branches on. -/
structure CommitConfig where
  containerID : String
  parentImageID : ImageID
  deriving Repr, DecidableEq

/-- Results of the external calls a single `CommitImage` execution makes,
one field per fallible call site, in program order. `none` / `.ok` means the
call succeeds. -/
structure CommitEnv where
  ctxErr : Option String
  getRWErr : Option String
  mountErr : Option String
  tarErr : Option String
  parentGet : Except String Image
  registerErr : Option String
  registeredDiffID : DiffID
  marshalErr : Option String
  createRes : Except String ImageID
  setBuiltErr : Option String
  setParentErr : Option String
  deriving Repr, DecidableEq

/-- Observable side effects of a `CommitImage` execution: reference counts
held on the container's RW layer and on the freshly registered layer, the
mount/stream state, the calls made to `layerStore.Register`, and the image
store / event log mutations. -/
structure CommitWorld where
  rwRefCount : Nat
  rwMounted : Bool
  archiveOpen : Bool
  layerRefCount : Nat
  registerCalls : List ChainID
  createdImages : List ImageID
  events : List (ImageID × String)
  builtLocally : List ImageID
  parentLinks : List (ImageID × ImageID)
  deriving Repr, DecidableEq

/-- The world before a commit: no references held, nothing mounted, no
events. -/
def initWorld : CommitWorld :=
  { rwRefCount := 0, rwMounted := false, archiveOpen := false
    layerRefCount := 0, registerCalls := [], createdImages := []
    events := [], builtLocally := [], parentLinks := [] }

/-- `layerStore.ReleaseRWLayer(rwlayer)`: drops one reference on the RW
layer. -/
def releaseRW (w : CommitWorld) : CommitWorld :=
  { w with rwRefCount := w.rwRefCount - 1 }

/-- The closer wrapped around the tar stream by `exportContainerRw`
(`ioutils.NewReadCloserWrapper`): closes the archive, unmounts the RW layer
and releases the RW-layer reference. -/
def closeRwTar (w : CommitWorld) : CommitWorld :=
  { w with archiveOpen := false, rwMounted := false
           rwRefCount := w.rwRefCount - 1 }

/-- `exportContainerRw(layerStore, id, mountLabel)`: get the RW layer
(acquiring a reference), mount it, open the tar stream; on a `Mount` or
`TarStream` failure the deferred `ReleaseRWLayer` runs before the error is
returned, and `TarStream` failure additionally unmounts. On success the
archive is open and the caller owns the wrapped closer. -/
def exportContainerRw (env : CommitEnv) (w : CommitWorld) :
    Except String Unit × CommitWorld :=
  match env.getRWErr with
  | some e => (.error e, w)
  | none =>
    let w1 := { w with rwRefCount := w.rwRefCount + 1 }
    match env.mountErr with
    | some e => (.error e, releaseRW w1)
    | none =>
      let w2 := { w1 with rwMounted := true }
      match env.tarErr with
      | some e => (.error e, releaseRW { w2 with rwMounted := false })
      | none => (.ok (), { w2 with archiveOpen := true })

/-- `ImageService.CommitImage(ctx, c)` from
`daemon/images/image_commit.go`, line by line: context check; export of the
container RW layer (whose closer is run by the deferred `rwTar.Close()` on
every later exit); parent resolution; `layerStore.Register` (whose reference
is dropped by the deferred `layer.ReleaseAndLog` on every later exit);
config marshalling; `imageStore.Create`; `LogImageEvent` with action
"create"; `SetBuiltLocally`; `SetParent` when a parent was given. -/
def CommitImage (env : CommitEnv) (c : CommitConfig) (w0 : CommitWorld) :
    Except String ImageID × CommitWorld :=
  match env.ctxErr with
  | some e => (.error e, w0)
  | none =>
    match exportContainerRw env w0 with
    | (.error e, w) => (.error e, w)
    | (.ok _, w) =>
      match (if c.parentImageID = "" then .ok { rootFS := NewRootFS }
             else env.parentGet : Except String Image) with
      | .error e => (.error e, closeRwTar w)
      | .ok parent =>
        let w := { w with registerCalls := w.registerCalls ++ [parent.rootFS] }
        match env.registerErr with
        | some e => (.error e, closeRwTar w)
        | none =>
          let w := { w with layerRefCount := w.layerRefCount + 1 }
          let releaseLayer := fun (w : CommitWorld) =>
            { w with layerRefCount := w.layerRefCount - 1 }
          match env.marshalErr with
          | some e => (.error e, closeRwTar (releaseLayer w))
          | none =>
            match env.createRes with
            | .error e => (.error e, closeRwTar (releaseLayer w))
            | .ok id =>
              let w := { w with createdImages := w.createdImages ++ [id]
                                events := w.events ++ [(id, "create")] }
              match env.setBuiltErr with
              | some e => (.error e, closeRwTar (releaseLayer w))
              | none =>
                let w := { w with builtLocally := w.builtLocally ++ [id] }
                if c.parentImageID = "" then
                  (.ok id, closeRwTar (releaseLayer w))
                else
                  match env.setParentErr with
                  | some e => (.error e, closeRwTar (releaseLayer w))
                  | none =>
                    (.ok id, closeRwTar (releaseLayer
                      { w with parentLinks :=
                          w.parentLinks ++ [(id, c.parentImageID)] }))

/-- The image ID returned by `imageStore.Create` when it succeeds. -/
def commitCreatedId (env : CommitEnv) : ImageID :=
  match env.createRes with
  | .ok i => i
  | .error _ => ""

/-- The parent chain ID passed to `layerStore.Register`: the empty chain
when no parent image ID is given, else the parent image's root-FS chain. -/
def commitParentChain (env : CommitEnv) (c : CommitConfig) : ChainID :=
  if c.parentImageID = "" then NewRootFS
  else match env.parentGet with
       | .ok p => p.rootFS
       | .error _ => []

/-- Execution reaches the `layerStore.Register` call: context live, export
succeeded, parent resolved. -/
def commitReachesRegister (env : CommitEnv) (c : CommitConfig) : Bool :=
  env.ctxErr.isNone && env.getRWErr.isNone && env.mountErr.isNone &&
  env.tarErr.isNone &&
  (if c.parentImageID = "" then true else env.parentGet.isOk)

/-- Execution reaches `imageStore.Create` and it succeeds. -/
def commitCreateSucceeds (env : CommitEnv) (c : CommitConfig) : Bool :=
  commitReachesRegister env c && env.registerErr.isNone &&
  env.marshalErr.isNone && env.createRes.isOk

/-- `layerStore.Register` is reached and succeeds. -/
def commitRegisterSucceeds (env : CommitEnv) (c : CommitConfig) : Bool :=
  commitReachesRegister env c && env.registerErr.isNone

/-- Every call in the commit succeeds, so `CommitImage` returns `ok`. -/
def commitAllOk (env : CommitEnv) (c : CommitConfig) : Bool :=
  commitCreateSucceeds env c && env.setBuiltErr.isNone &&
  (if c.parentImageID = "" then true else env.setParentErr.isNone)

/-- Closed-form characterization of a `CommitImage` run from the clean
world: the events and created images are exactly one "create" iff
`imageStore.Create` succeeded; the RW-layer reference, mount, archive
and the registered-layer reference are all released on every path;
`Register` is called exactly once with the parent's chain iff execution
reaches it; and the run succeeds iff every call succeeded. -/
lemma commitImage_initWorld_spec (env : CommitEnv) (c : CommitConfig) :
    ((CommitImage env c initWorld).2.events
       = if commitCreateSucceeds env c then [(commitCreatedId env, "create")]
         else [])
  ∧ ((CommitImage env c initWorld).2.createdImages
       = if commitCreateSucceeds env c then [commitCreatedId env] else [])
  ∧ (CommitImage env c initWorld).2.rwRefCount = 0
  ∧ (CommitImage env c initWorld).2.rwMounted = false
  ∧ (CommitImage env c initWorld).2.archiveOpen = false
  ∧ (CommitImage env c initWorld).2.layerRefCount = 0
  ∧ ((CommitImage env c initWorld).2.registerCalls
       = if commitReachesRegister env c then [commitParentChain env c]
         else [])
  ∧ ((CommitImage env c initWorld).1.isOk = commitAllOk env c) := by
  obtain ⟨ctx, grw, mnt, tar, pg, reg, rdi, mar, cr, sb, sp⟩ := env
  obtain ⟨cid, pid⟩ := c
  cases ctx
  case some e =>
    simp [CommitImage, commitCreateSucceeds, commitReachesRegister,
          commitAllOk, initWorld, Except.isOk, Except.toBool]
  cases grw
  case some e =>
    simp [CommitImage, exportContainerRw, commitCreateSucceeds,
          commitReachesRegister, commitAllOk, initWorld,
          Except.isOk, Except.toBool]
  cases mnt
  case some e =>
    simp [CommitImage, exportContainerRw, commitCreateSucceeds,
          commitReachesRegister, commitAllOk, releaseRW, initWorld,
          Except.isOk, Except.toBool]
  cases tar
  case some e =>
    simp [CommitImage, exportContainerRw, commitCreateSucceeds,
          commitReachesRegister, commitAllOk, releaseRW, initWorld,
          Except.isOk, Except.toBool]
  by_cases hpid : pid = "" <;>
    cases pg <;> cases reg <;> cases mar <;> cases cr <;>
      cases sb <;> cases sp <;>
    simp [CommitImage, exportContainerRw, commitCreateSucceeds,
          commitRegisterSucceeds, commitReachesRegister, commitAllOk,
          commitCreatedId, commitParentChain, closeRwTar, releaseRW,
          initWorld, NewRootFS, hpid, Except.isOk, Except.toBool]

/-- An environment in which every external call of the commit succeeds. -/
def allOkCommitEnv : CommitEnv :=
  { ctxErr := none, getRWErr := none, mountErr := none, tarErr := none
    parentGet := .ok { rootFS := ["d1"] }, registerErr := none
    registeredDiffID := "d2", marshalErr := none, createRes := .ok "img2"
    setBuiltErr := none, setParentErr := none }

/-- A commit request for a container based on parent image "p1". -/
def sampleCommitConfig : CommitConfig :=
  { containerID := "ctr", parentImageID := "p1" }

/-- On a `Mount` or `TarStream` failure, `exportContainerRw` returns with
the RW-layer reference released (net reference change zero) and the layer
unmounted. -/
lemma exportContainerRw_error_clean (env : CommitEnv) (w : CommitWorld)
    (hm : w.rwMounted = false) :
    (exportContainerRw env w).1.isOk = false →
      (exportContainerRw env w).2.rwRefCount = w.rwRefCount ∧
      (exportContainerRw env w).2.rwMounted = false := by
  obtain ⟨ctx, grw, mnt, tar, pg, reg, rdi, mar, cr, sb, sp⟩ := env
  cases grw <;> cases mnt <;> cases tar <;>
    simp [exportContainerRw, releaseRW, hm, Except.isOk, Except.toBool]

/-- C1 (counterexample): with every call succeeding except
`SetBuiltLocally`, `CommitImage` returns an error, yet exactly one "create"
event has been emitted — refuting "if CommitImage returns an error, no
image-creation lifecycle event is emitted". -/
theorem C1_counterexample :
    (CommitImage { allOkCommitEnv with setBuiltErr := some "boom" }
        sampleCommitConfig initWorld).1 = .error "boom"
    ∧ (CommitImage { allOkCommitEnv with setBuiltErr := some "boom" }
        sampleCommitConfig initWorld).2.events = [("img2", "create")] := by
  constructor <;> rfl

/-- C1 (amended): exactly one "create" event is emitted when and only when
`imageStore.Create` succeeds — in particular exactly one event on every
successful commit, none on failures at or before `Create`, and one event
even when `CommitImage` then fails in `SetBuiltLocally` or `SetParent`. -/
theorem C1_event_iff_create (env : CommitEnv) (c : CommitConfig) :
    ((CommitImage env c initWorld).2.events
       = if commitCreateSucceeds env c then [(commitCreatedId env, "create")]
         else [])
    ∧ ((CommitImage env c initWorld).1.isOk = commitAllOk env c)
    ∧ (commitAllOk env c = true → commitCreateSucceeds env c = true) := by
  obtain ⟨he, -, -, -, -, -, -, hok⟩ := commitImage_initWorld_spec env c
  refine ⟨he, hok, fun h => ?_⟩
  simp only [commitAllOk, Bool.and_eq_true] at h
  exact h.1.1

/-- C1 witness: the amended characterization evaluated at the all-success
environment — one "create" event, successful return. -/
theorem C1_witness :
    ((CommitImage allOkCommitEnv sampleCommitConfig initWorld).2.events
       = if commitCreateSucceeds allOkCommitEnv sampleCommitConfig then
           [(commitCreatedId allOkCommitEnv, "create")]
         else [])
    ∧ ((CommitImage allOkCommitEnv sampleCommitConfig initWorld).1.isOk
       = commitAllOk allOkCommitEnv sampleCommitConfig)
    ∧ (commitAllOk allOkCommitEnv sampleCommitConfig = true →
       commitCreateSucceeds allOkCommitEnv sampleCommitConfig = true) :=
  C1_event_iff_create allOkCommitEnv sampleCommitConfig

/-- C4: no exit path leaks the RW-layer mount or reference — on a failure
inside `exportContainerRw` the reference is released and the layer
unmounted before the error returns; every `CommitImage` run (success or
failure) ends with no RW reference, no mount and no open archive; and
closing the returned read-closer closes the archive, unmounts and drops the
reference. -/
theorem C4_no_dangling_mount (env : CommitEnv) (w : CommitWorld)
    (hm : w.rwMounted = false) :
    ((exportContainerRw env w).1.isOk = false →
       (exportContainerRw env w).2.rwRefCount = w.rwRefCount ∧
       (exportContainerRw env w).2.rwMounted = false)
    ∧ (∀ c, (CommitImage env c initWorld).2.rwRefCount = 0 ∧
            (CommitImage env c initWorld).2.rwMounted = false ∧
            (CommitImage env c initWorld).2.archiveOpen = false)
    ∧ ((closeRwTar w).archiveOpen = false ∧ (closeRwTar w).rwMounted = false
       ∧ (closeRwTar w).rwRefCount = w.rwRefCount - 1) := by
  refine ⟨exportContainerRw_error_clean env w hm, fun c => ?_,
          by simp [closeRwTar]⟩
  obtain ⟨-, -, h1, h2, h3, -, -, -⟩ := commitImage_initWorld_spec env c
  exact ⟨h1, h2, h3⟩

/-- C4 witness: the guarantee evaluated at a run whose `TarStream` call
fails, starting from the clean world. -/
theorem C4_witness :
    initWorld.rwMounted = false
    ∧ (((exportContainerRw { allOkCommitEnv with tarErr := some "tar" }
          initWorld).1.isOk = false →
        (exportContainerRw { allOkCommitEnv with tarErr := some "tar" }
          initWorld).2.rwRefCount = initWorld.rwRefCount ∧
        (exportContainerRw { allOkCommitEnv with tarErr := some "tar" }
          initWorld).2.rwMounted = false)
      ∧ (∀ c, (CommitImage { allOkCommitEnv with tarErr := some "tar" } c
                initWorld).2.rwRefCount = 0 ∧
              (CommitImage { allOkCommitEnv with tarErr := some "tar" } c
                initWorld).2.rwMounted = false ∧
              (CommitImage { allOkCommitEnv with tarErr := some "tar" } c
                initWorld).2.archiveOpen = false)
      ∧ ((closeRwTar initWorld).archiveOpen = false
         ∧ (closeRwTar initWorld).rwMounted = false
         ∧ (closeRwTar initWorld).rwRefCount = initWorld.rwRefCount - 1)) :=
  ⟨rfl, C4_no_dangling_mount { allOkCommitEnv with tarErr := some "tar" }
          initWorld rfl⟩

/-- C5: when the context is already cancelled at entry, `CommitImage`
returns the context's error and the world is completely unchanged — no RW
layer touched, no layer registered, no image record created, no event. -/
theorem C5_cancelled_entry_no_side_effects (env : CommitEnv)
    (c : CommitConfig) (w : CommitWorld) (e : String)
    (h : env.ctxErr = some e) :
    CommitImage env c w = (.error e, w) := by
  simp [CommitImage, h]

/-- C5 witness: a concrete already-cancelled commit. -/
theorem C5_witness :
    ({ allOkCommitEnv with ctxErr := some "context canceled" } :
        CommitEnv).ctxErr = some "context canceled"
    ∧ CommitImage { allOkCommitEnv with ctxErr := some "context canceled" }
        sampleCommitConfig initWorld
      = (.error "context canceled", initWorld) :=
  ⟨rfl, C5_cancelled_entry_no_side_effects _ _ _ _ rfl⟩

/-- C9: whenever `layerStore.Register` succeeds, the reference it returned
is released again before `CommitImage` returns (the final world holds no
layer-store reference), and `Register` was called exactly once, with the
parent's chain ID. -/
theorem C9_register_ref_released (env : CommitEnv) (c : CommitConfig)
    (h : commitRegisterSucceeds env c = true) :
    (CommitImage env c initWorld).2.layerRefCount = 0
    ∧ (CommitImage env c initWorld).2.registerCalls
      = [commitParentChain env c] := by
  obtain ⟨-, -, -, -, -, h1, h2, -⟩ := commitImage_initWorld_spec env c
  have hr : commitReachesRegister env c = true := by
    simp only [commitRegisterSucceeds, Bool.and_eq_true] at h
    exact h.1
  rw [hr] at h2
  exact ⟨h1, by simpa using h2⟩

/-- C9 witness: the release guarantee at the all-success environment. -/
theorem C9_witness :
    commitRegisterSucceeds allOkCommitEnv sampleCommitConfig = true
    ∧ ((CommitImage allOkCommitEnv sampleCommitConfig initWorld).2.layerRefCount
         = 0
       ∧ (CommitImage allOkCommitEnv sampleCommitConfig initWorld).2.registerCalls
         = [commitParentChain allOkCommitEnv sampleCommitConfig]) :=
  ⟨by decide, C9_register_ref_released allOkCommitEnv sampleCommitConfig
      (by decide)⟩

/-! ## Disk usage (`ImageDiskUsage`, `getLayerRefs`) -/

/-- An entry of the layer-store snapshot `layerStore.Map()`: its chain ID
and `DiffSize()`. -/
structure DULayer where
  chainID : ChainID
  diffSize : Int
  deriving Repr, DecidableEq

/-- An entry of the image-store snapshot `imageStore.Map()`: the image ID
and its root filesystem's diff IDs. -/
structure DUImage where
  id : ImageID
  rootFS : List DiffID
  deriving Repr, DecidableEq

/-- The stores as `ImageDiskUsage` observes them: the two snapshots, the
number of reference-store entries per image digest
(`len(referenceStore.References(dgst))`), and the image children
(`imageStore.Children(id)`). -/
structure DUState where
  images : List DUImage
  refCounts : ImageID → Nat
  children : ImageID → List ImageID
  layers : List DULayer

/-- The nonempty prefixes of a root filesystem, in order: the chain IDs
produced by `getLayerRefs`'s inner loop (`rootFS.Append(id); rootFS.ChainID()`
for each diff ID in turn). -/
def nonemptyPrefixes (ds : List DiffID) : List ChainID :=
  (List.range ds.length).map fun k => ds.take (k + 1)

/-- `getLayerRefs`: the chain-ID-keyed count map, represented by the
multiset of its increments (one list entry per `layerRefs[chid]++`); a key
is present in the Go map iff it occurs in this list. Images with zero
reference-store entries and a non-empty children list are skipped. -/
def getLayerRefs (s : DUState) : List ChainID :=
  s.images.foldr
    (fun img acc =>
      if s.refCounts img.id = 0 ∧ s.children img.id ≠ [] then acc
      else nonemptyPrefixes img.rootFS ++ acc)
    []

/-- Result of an `ImageDiskUsage` run: the returned size, whether the run
returned the context's cancellation error, and how many cancellation checks
(`select { case <-ctx.Done() ... }`) were performed. -/
structure DUResult where
  size : Int
  cancelled : Bool
  checks : Nat
  deriving Repr, DecidableEq

/-- The layer loop of `ImageDiskUsage`: per layer, first check the context
(cancellation observable after `cancelAt` further iterations), then add the
layer's `DiffSize()` when its chain ID is in the reference map. -/
def duLoop (refs : List ChainID) :
    List DULayer → Nat → Int → DUResult
  | [], _, acc => ⟨acc, false, 0⟩
  | _ :: _, 0, acc => ⟨acc, true, 1⟩
  | l :: ls, n + 1, acc =>
    let acc' := if refs.contains l.chainID then acc + l.diffSize else acc
    let r := duLoop refs ls n acc'
    ⟨r.size, r.cancelled, r.checks + 1⟩

/-- `ImageService.ImageDiskUsage(ctx)`: build `getLayerRefs`, then iterate
the layer-store snapshot accumulating `DiffSize()` of referenced layers;
`cancelAt` is the number of iterations after which the context becomes
observably cancelled. -/
def ImageDiskUsage (s : DUState) (cancelAt : Nat) : DUResult :=
  duLoop (getLayerRefs s) s.layers cancelAt 0

/-- Modelled from the spec (§4.3 disk usage accounting): the total is the
sum of `DiffSize()` over the layers of the snapshot whose chain ID is on
the root-filesystem chain of some image that is kept, where an image is
kept unless it has zero Reference-Store entries and a non-empty children
set. Each snapshot layer contributes at most once. -/
def specDiskUsage (s : DUState) : Int :=
  ((s.layers.filter fun l =>
      decide (∃ img ∈ s.images,
        ¬(s.refCounts img.id = 0 ∧ s.children img.id ≠ []) ∧
        l.chainID ∈ nonemptyPrefixes img.rootFS)).map
    (·.diffSize)).sum

/-- A chain ID is in the `getLayerRefs` map iff some non-skipped image has
it on its root-filesystem chain. -/
lemma contains_foldr_prefixes (refCounts : ImageID → Nat)
    (children : ImageID → List ImageID) (imgs : List DUImage) (c : ChainID) :
    (imgs.foldr
      (fun img acc =>
        if refCounts img.id = 0 ∧ children img.id ≠ [] then acc
        else nonemptyPrefixes img.rootFS ++ acc) []).contains c = true
    ↔ ∃ img ∈ imgs, ¬(refCounts img.id = 0 ∧ children img.id ≠ []) ∧
        c ∈ nonemptyPrefixes img.rootFS := by
  induction imgs with
  | nil => simp
  | cons img imgs ih =>
    simp only [List.foldr_cons]
    by_cases h : refCounts img.id = 0 ∧ children img.id ≠ []
    · rw [if_pos h, ih]
      simp only [List.mem_cons]
      constructor
      · rintro ⟨x, hx, hk, hc⟩
        exact ⟨x, Or.inr hx, hk, hc⟩
      · rintro ⟨x, hx | hx, hk, hc⟩
        · exact absurd (hx ▸ h) hk
        · exact ⟨x, hx, hk, hc⟩
    · rw [if_neg h]
      rw [List.elem_iff] at ih ⊢
      simp only [List.mem_append, ih, List.mem_cons]
      constructor
      · rintro (hc | ⟨x, hx, hk, hc⟩)
        · exact ⟨img, Or.inl rfl, h, hc⟩
        · exact ⟨x, Or.inr hx, hk, hc⟩
      · rintro ⟨x, hx | hx, hk, hc⟩
        · exact Or.inl (hx ▸ hc)
        · exact Or.inr ⟨x, hx, hk, hc⟩

/-- An uncancelled pass of the layer loop sums `DiffSize()` over exactly
the referenced layers, checking the context once per layer. -/
lemma duLoop_no_cancel (refs : List ChainID) (ls : List DULayer) (n : Nat)
    (acc : Int) (h : ls.length ≤ n) :
    duLoop refs ls n acc =
      ⟨acc + ((ls.filter fun l => refs.contains l.chainID).map
        (·.diffSize)).sum, false, ls.length⟩ := by
  induction ls generalizing n acc with
  | nil => simp [duLoop]
  | cons l ls ih =>
    cases n with
    | zero => simp at h
    | succ n =>
      simp only [duLoop]
      rw [ih _ _ (by simpa using h)]
      by_cases hc : l.chainID ∈ refs <;>
        simp [hc, List.filter_cons, add_assoc, List.elem_iff]

/-- A pass whose context becomes cancelled after `n` iterations returns the
sum over the first `n` layers, the cancellation flag, and `n + 1` checks. -/
lemma duLoop_cancel (refs : List ChainID) (ls : List DULayer) (n : Nat)
    (acc : Int) (h : n < ls.length) :
    duLoop refs ls n acc =
      ⟨acc + (((ls.take n).filter fun l => refs.contains l.chainID).map
        (·.diffSize)).sum, true, n + 1⟩ := by
  induction ls generalizing n acc with
  | nil => simp at h
  | cons l ls ih =>
    cases n with
    | zero => simp [duLoop]
    | succ n =>
      simp only [duLoop]
      rw [ih _ _ (by simpa using h)]
      by_cases hc : l.chainID ∈ refs <;>
        simp [hc, List.filter_cons, add_assoc, List.elem_iff]

lemma bool_eq_decide {b : Bool} {p : Prop} [Decidable p]
    (h : b = true ↔ p) : b = decide p := by
  cases b
  · have hnp : ¬p := fun hp => Bool.false_ne_true (h.mpr hp)
    exact (decide_eq_false hnp).symm
  · exact (decide_eq_true (h.mp rfl)).symm

/-- C2: the uncancelled `ImageDiskUsage` total equals the spec's formula —
sum of `DiffSize()` over every snapshot layer (each counted once) whose
chain ID lies on the root-filesystem chain of some image that is not
skipped, images being skipped exactly when they have zero Reference-Store
entries and a non-empty children set. -/
theorem C2_disk_usage_refines_spec (s : DUState) :
    (ImageDiskUsage s s.layers.length).size = specDiskUsage s
    ∧ (ImageDiskUsage s s.layers.length).cancelled = false := by
  have h := duLoop_no_cancel (getLayerRefs s) s.layers s.layers.length 0
    le_rfl
  unfold ImageDiskUsage
  rw [h]
  refine ⟨?_, rfl⟩
  simp only [zero_add]
  unfold specDiskUsage
  congr 1
  apply congrArg
  apply List.filter_congr
  intro l _
  exact bool_eq_decide
    (contains_foldr_prefixes s.refCounts s.children s.images l.chainID)

/-- C3: if the context is observed cancelled at any point of the layer
iteration (after `cancelAt < #layers` full iterations), `ImageDiskUsage`
returns the cancellation error together with the partial sum over the
layers iterated so far; that partial sum is non-negative and at most the
uncancelled total, and the context is checked exactly once per layer
iterated (`cancelAt + 1` checks here, one per layer on a full run). -/
theorem C3_cancellation_partial_size (s : DUState) (cancelAt : Nat)
    (hsz : ∀ l ∈ s.layers, 0 ≤ l.diffSize)
    (hc : cancelAt < s.layers.length) :
    (ImageDiskUsage s cancelAt).cancelled = true
    ∧ (ImageDiskUsage s cancelAt).size
        = (((s.layers.take cancelAt).filter fun l =>
            (getLayerRefs s).contains l.chainID).map (·.diffSize)).sum
    ∧ 0 ≤ (ImageDiskUsage s cancelAt).size
    ∧ (ImageDiskUsage s cancelAt).size
        ≤ (ImageDiskUsage s s.layers.length).size
    ∧ (ImageDiskUsage s cancelAt).checks = cancelAt + 1
    ∧ (ImageDiskUsage s s.layers.length).checks = s.layers.length := by
  have h1 := duLoop_cancel (getLayerRefs s) s.layers cancelAt 0 hc
  have h2 := duLoop_no_cancel (getLayerRefs s) s.layers s.layers.length 0
    le_rfl
  unfold ImageDiskUsage
  rw [h1, h2]
  simp only [zero_add]
  have hpart : 0 ≤ (((s.layers.take cancelAt).filter fun l =>
      (getLayerRefs s).contains l.chainID).map (·.diffSize)).sum := by
    apply List.sum_nonneg
    intro x hx
    simp only [List.mem_map] at hx
    obtain ⟨l, hl, rfl⟩ := hx
    exact hsz l (List.mem_of_mem_take (List.mem_of_mem_filter hl))
  refine ⟨by simp, by simp, hpart, ?_, by simp, by simp⟩
  conv_rhs => rw [← List.take_append_drop cancelAt s.layers]
  rw [List.filter_append, List.map_append, List.sum_append]
  have hrest : 0 ≤ (((s.layers.drop cancelAt).filter fun l =>
      (getLayerRefs s).contains l.chainID).map (·.diffSize)).sum := by
    apply List.sum_nonneg
    intro x hx
    simp only [List.mem_map] at hx
    obtain ⟨l, hl, rfl⟩ := hx
    exact hsz l (List.mem_of_mem_drop (List.mem_of_mem_filter hl))
  linarith

/-- Two images over a shared base diff, one of them a skipped intermediate,
plus an unreferenced layer: i1 is kept (one tag), i2 has no tags and a
child, so only i1's chain is counted. -/
def sampleDUState : DUState :=
  { images := [⟨"i1", ["d1", "d2"]⟩, ⟨"i2", ["d1"]⟩]
    refCounts := fun i => if i = "i1" then 1 else 0
    children := fun i => if i = "i2" then ["i1"] else []
    layers := [⟨["d1"], 5⟩, ⟨["d1", "d2"], 7⟩, ⟨["x"], 3⟩] }

/-- C3 witness: cancelling `sampleDUState`'s scan after one layer returns
5 with the cancellation error; the full run returns 12. -/
theorem C3_witness :
    (∀ l ∈ sampleDUState.layers, 0 ≤ l.diffSize)
    ∧ 1 < sampleDUState.layers.length
    ∧ ((ImageDiskUsage sampleDUState 1).cancelled = true
       ∧ (ImageDiskUsage sampleDUState 1).size
           = (((sampleDUState.layers.take 1).filter fun l =>
               (getLayerRefs sampleDUState).contains l.chainID).map
             (·.diffSize)).sum
       ∧ 0 ≤ (ImageDiskUsage sampleDUState 1).size
       ∧ (ImageDiskUsage sampleDUState 1).size
           ≤ (ImageDiskUsage sampleDUState
               sampleDUState.layers.length).size
       ∧ (ImageDiskUsage sampleDUState 1).checks = 1 + 1
       ∧ (ImageDiskUsage sampleDUState
           sampleDUState.layers.length).checks
         = sampleDUState.layers.length) :=
  ⟨by decide, by decide,
   C3_cancellation_partial_size sampleDUState 1 (by decide) (by decide)⟩

/-! ## `ReleaseLayer` error tolerance -/

/-- Identity of the error returned by `layerStore.ReleaseRWLayer`, as
`errors.Is` distinguishes it: `layer.ErrMountDoesNotExist`,
`os.ErrNotExist`, or any other error. -/
inductive GoErr where
  | mountDoesNotExist
  | notExist
  | other (msg : String)
  deriving Repr, DecidableEq

/-- The message carried by a release error. -/
def goErrMsg : GoErr → String
  | .mountDoesNotExist => "mount does not exist"
  | .notExist => "file does not exist"
  | .other msg => msg

/-- `ImageService.ReleaseLayer(rwlayer)`: reject a value that is not a
`layer.RWLayer`; otherwise release via the layer store and swallow the
error when it is `ErrMountDoesNotExist` or `os.ErrNotExist`, wrapping any
other error with the driver name. -/
def ReleaseLayer (isRWLayer : Bool) (releaseResult : Option GoErr)
    (driverName : String) : Option String :=
  if isRWLayer = false then some "unexpected RWLayer type"
  else
    match releaseResult with
    | none => none
    | some e =>
      if e ≠ GoErr.mountDoesNotExist ∧ e ≠ GoErr.notExist then
        some ("driver \x22" ++ driverName ++
          "\x22 failed to remove root filesystem: " ++ goErrMsg e)
      else none

/-- C6: `ReleaseLayer` returns success when the underlying release
succeeds or fails with `ErrMountDoesNotExist` or a file-does-not-exist
error (already-absent mounts are treated as already clean); any other
release error is surfaced wrapped with the driver name. -/
theorem C6_release_absent_is_clean (d : String) :
    (ReleaseLayer true none d = none)
    ∧ (ReleaseLayer true (some .mountDoesNotExist) d = none)
    ∧ (ReleaseLayer true (some .notExist) d = none)
    ∧ (∀ msg, ReleaseLayer true (some (.other msg)) d
        = some ("driver \x22" ++ d ++
            "\x22 failed to remove root filesystem: " ++ msg)) :=
  ⟨rfl, rfl, rfl, fun _ => rfl⟩

/-! ## Transfer concurrency reconfiguration (`UpdateConfig`) -/

/-- A download/upload manager: its current concurrency bound and the
history of `SetConcurrency` invocations made on it. -/
structure TransferManager where
  concurrency : Int
  setCalls : List Int
  deriving Repr, DecidableEq

/-- `SetConcurrency(n)`: adjust the bound, recording the call. -/
def SetConcurrency (n : Int) (m : TransferManager) : TransferManager :=
  { concurrency := n, setCalls := m.setCalls ++ [n] }

/-- The two managers `UpdateConfig` may reconfigure (`nil` in Go is
`none`). -/
structure XferConfig where
  downloadManager : Option TransferManager
  uploadManager : Option TransferManager
  deriving Repr, DecidableEq

/-- `ImageService.UpdateConfig(maxDownloads, maxUploads)`: call
`SetConcurrency` on the download manager when it is non-nil and
`maxDownloads != 0`, then likewise for uploads. -/
def UpdateConfig (maxDownloads maxUploads : Int) (s : XferConfig) :
    XferConfig :=
  let s1 :=
    match s.downloadManager with
    | some m =>
      if maxDownloads ≠ 0 then
        { s with downloadManager := some (SetConcurrency maxDownloads m) }
      else s
    | none => s
  match s1.uploadManager with
  | some m =>
    if maxUploads ≠ 0 then
      { s1 with uploadManager := some (SetConcurrency maxUploads m) }
    else s1
  | none => s1

/-- C8: a zero bound is a no-op — `UpdateConfig 0 u` leaves the download
manager untouched (same bound, no `SetConcurrency` call recorded) and
`UpdateConfig d 0` leaves the upload manager untouched; and a zero for one
side never changes what happens to the other side. -/
theorem C8_zero_concurrency_noop (s : XferConfig) (maxD maxU : Int) :
    ((UpdateConfig 0 maxU s).downloadManager = s.downloadManager)
    ∧ ((UpdateConfig maxD 0 s).uploadManager = s.uploadManager)
    ∧ ((UpdateConfig 0 maxU s).uploadManager
        = (UpdateConfig maxD maxU s).uploadManager)
    ∧ ((UpdateConfig maxD 0 s).downloadManager
        = (UpdateConfig maxD maxU s).downloadManager) := by
  obtain ⟨dm, um⟩ := s
  cases dm <;> cases um <;>
    by_cases hd : maxD = 0 <;> by_cases hu : maxU = 0 <;>
      simp [UpdateConfig, SetConcurrency, hd, hu]

/-! ## `CreateLayer` for a new container -/

/-- The container fields `CreateLayer` reads. -/
structure CreateLayerContainer where
  id : String
  imageID : ImageID
  mountLabel : String
  deriving Repr, DecidableEq

/-- `ImageService.CreateLayerFromImage(img, layerName, opts)`: the
`layerStore.CreateRWLayer` call it makes, as (name, parent chain ID); the
zero chain when `img` is nil. -/
def CreateLayerFromImage (img : Option Image) (layerName : String) :
    String × ChainID :=
  (layerName,
   match img with
   | some im => im.rootFS
   | none => [])

/-- `ImageService.CreateLayer(container, initFunc)`: consult the image
store only when the container has a non-empty `ImageID` (propagating its
error unchanged), then delegate to `CreateLayerFromImage`. Returns the
resulting `CreateRWLayer` arguments and the list of image-store lookups
performed. -/
def CreateLayer (store : ImageID → Except String Image)
    (ctr : CreateLayerContainer) :
    Except String (String × ChainID) × List ImageID :=
  if ctr.imageID = "" then
    (.ok (CreateLayerFromImage none ctr.id), [])
  else
    match store ctr.imageID with
    | .error e => (.error e, [ctr.imageID])
    | .ok img => (.ok (CreateLayerFromImage (some img) ctr.id), [ctr.imageID])

/-- C10: a container with an empty `ImageID` never consults the image
store and gets its RW layer on the empty parent chain; with a non-empty
`ImageID` the store is queried exactly once, its error is returned
unchanged, and on success the layer is created on the image's chain. -/
theorem C10_imageless_container_layer
    (store : ImageID → Except String Image) (ctr : CreateLayerContainer) :
    (ctr.imageID = "" →
      CreateLayer store ctr = (.ok (ctr.id, ([] : ChainID)), []))
    ∧ (ctr.imageID ≠ "" →
        (CreateLayer store ctr).2 = [ctr.imageID]
        ∧ (∀ e, store ctr.imageID = .error e →
            (CreateLayer store ctr).1 = .error e)
        ∧ (∀ img, store ctr.imageID = .ok img →
            (CreateLayer store ctr).1 = .ok (ctr.id, img.rootFS))) := by
  constructor
  · intro h
    simp [CreateLayer, CreateLayerFromImage, h]
  · intro h
    refine ⟨?_, ?_, ?_⟩
    · cases hs : store ctr.imageID <;> simp [CreateLayer, h, hs]
    · intro e he
      simp [CreateLayer, h, he]
    · intro img hi
      simp [CreateLayer, CreateLayerFromImage, h, hi]

/-- A store holding one image "img1" with a single diff. -/
def sampleImageStore : ImageID → Except String Image :=
  fun i => if i = "img1" then .ok { rootFS := ["d1"] }
           else .error "image not found"

/-- C10 witness: an image-less container gets the empty chain without a
lookup; a container on "img1" gets its chain after one lookup; a missing
image's error comes back unchanged. -/
theorem C10_witness :
    (CreateLayer sampleImageStore ⟨"c1", "", "lbl"⟩
      = (.ok ("c1", ([] : ChainID)), []))
    ∧ ((CreateLayer sampleImageStore ⟨"c2", "img1", "lbl"⟩).1
        = .ok ("c2", ["d1"])
       ∧ (CreateLayer sampleImageStore ⟨"c2", "img1", "lbl"⟩).2 = ["img1"])
    ∧ (CreateLayer sampleImageStore ⟨"c3", "missing", "lbl"⟩).1
        = .error "image not found" :=
  ⟨(C10_imageless_container_layer sampleImageStore ⟨"c1", "", "lbl"⟩).1 rfl,
   ⟨((C10_imageless_container_layer sampleImageStore
        ⟨"c2", "img1", "lbl"⟩).2 (by decide)).2.2 { rootFS := ["d1"] } rfl,
    ((C10_imageless_container_layer sampleImageStore
        ⟨"c2", "img1", "lbl"⟩).2 (by decide)).1⟩,
   ((C10_imageless_container_layer sampleImageStore
        ⟨"c3", "missing", "lbl"⟩).2 (by decide)).2.1 "image not found" rfl⟩

/-! ## `getRef` parent-chain resolution (builder worker) -/

/-- `Worker.getRef(ctx, diffIDs, opts...)`: the sequence of
`CacheManager().GetByBlob` calls it makes, in order, each identified by the
diff-ID prefix it resolves, together with overall success. `ok p` is
whether the `GetByBlob` call for prefix `p` succeeds; when the recursive
parent resolution fails, the current position's call is never made. The
recursion is on `diffIDs[:len(diffIDs)-1]`, one element shorter, so it is
structurally terminating. -/
def getRefCalls (ok : List DiffID → Bool) (ds : List DiffID) :
    List (List DiffID) × Bool :=
  if _h : ds.length ≤ 1 then ([ds], ok ds)
  else
    let r := getRefCalls ok ds.dropLast
    if r.2 then (r.1 ++ [ds], ok ds) else r
termination_by ds.length
decreasing_by
  simp only [List.length_dropLast]
  omega

/-- The call sequence of `getRef` is always the increasing sequence of
nonempty prefixes up to some cut-off `k` (the first failure, or the whole
list); a successful run made all `length` calls; an all-successful oracle
always succeeds. -/
lemma getRefCalls_spec (ok : List DiffID → Bool) :
    ∀ n (ds : List DiffID), ds.length = n → ds ≠ [] →
    ∃ k, 1 ≤ k ∧ k ≤ ds.length ∧
      (getRefCalls ok ds).1 = (List.range k).map (fun i => ds.take (i + 1))
      ∧ ((getRefCalls ok ds).2 = true → k = ds.length)
      ∧ ((∀ x, ok x = true) → (getRefCalls ok ds).2 = true) := by
  intro n
  induction n using Nat.strong_induction_on with
  | _ n ih =>
    intro ds hlen hne
    by_cases hb : ds.length ≤ 1
    · have h1 : ds.length = 1 := by
        have := List.length_pos.mpr hne
        omega
      refine ⟨1, le_refl 1, by omega, ?_, fun _ => by omega, fun hok => ?_⟩
      · rw [getRefCalls, dif_pos hb]
        simp [List.range_succ,
              List.take_of_length_le (by omega : ds.length ≤ 1)]
      · rw [getRefCalls, dif_pos hb]
        exact hok ds
    · have h2 : 2 ≤ ds.length := by omega
      have hdl : ds.dropLast.length = ds.length - 1 := List.length_dropLast ds
      have hdne : ds.dropLast ≠ [] := by
        intro hx
        rw [hx] at hdl
        simp at hdl
        omega
      obtain ⟨k, hk1, hk2, hcalls, hflag, hall⟩ :=
        ih (ds.length - 1) (by omega) ds.dropLast (by omega) hdne
      have htake : ∀ j, j ≤ ds.length - 1 →
          ds.dropLast.take j = ds.take j := by
        intro j hj
        rw [List.dropLast_eq_take, List.take_take]
        congr 1
        omega
      rw [getRefCalls, dif_neg hb]
      by_cases hr : (getRefCalls ok ds.dropLast).2 = true
      · have hkl : k = ds.length - 1 := by rw [hflag hr, hdl]
        refine ⟨ds.length, by omega, le_refl _, ?_, fun _ => rfl,
                fun hok => ?_⟩
        · simp only [hr, if_true]
          have hre : ds.length = (ds.length - 1) + 1 := by omega
          rw [hcalls, hkl]
          conv_rhs => rw [hre, List.range_succ]
          rw [List.map_append]
          congr 1
          · apply List.map_eq_map_iff.mpr
            intro i hi
            simp only [List.mem_range] at hi
            exact htake (i + 1) (by omega)
          · simp [List.take_of_length_le
              (by omega : ds.length ≤ (ds.length - 1) + 1)]
        · simp only [hr, if_true]
          exact hok ds
      · have hrf : (getRefCalls ok ds.dropLast).2 = false := by
          cases hx : (getRefCalls ok ds.dropLast).2
          · rfl
          · exact absurd hx hr
        refine ⟨k, hk1, by omega, ?_, ?_,
                fun hok => absurd (hall hok) hr⟩
        · simp only [hrf, Bool.false_eq_true, if_false]
          rw [hcalls]
          apply List.map_eq_map_iff.mpr
          intro i hi
          simp only [List.mem_range] at hi
          exact htake (i + 1) (by omega)
        · simp only [hrf, Bool.false_eq_true, if_false]
          exact fun hx => hx.elim

/-- C7: for every non-empty diff-ID list, the `GetByBlob` calls made by
`getRef` are exactly the nonempty prefixes in increasing length order up to
some cut-off — every ancestor position is resolved, in order, before
position N — and on an all-successful run the sequence is the full ordered
prefix list of length `ds.length`, so the recursion makes finitely many
calls, one per position. -/
theorem C7_getRef_parent_order (ok : List DiffID → Bool) (ds : List DiffID)
    (h : ds ≠ []) :
    (∃ k, 1 ≤ k ∧ k ≤ ds.length ∧
       (getRefCalls ok ds).1 = (List.range k).map fun i => ds.take (i + 1))
    ∧ ((getRefCalls (fun _ => true) ds).1
         = (List.range ds.length).map fun i => ds.take (i + 1)) := by
  constructor
  · obtain ⟨k, hk1, hk2, hcalls, -, -⟩ :=
      getRefCalls_spec ok ds.length ds rfl h
    exact ⟨k, hk1, hk2, hcalls⟩
  · obtain ⟨k, -, -, hcalls, hflag, hall⟩ :=
      getRefCalls_spec (fun _ => true) ds.length ds rfl h
    rw [hcalls, hflag (hall (fun _ => rfl))]

/-- C7 witness: over the three-layer chain a, b, c, a successful `getRef`
resolves the prefixes a; a,b; a,b,c in that order. -/
theorem C7_witness :
    (["a", "b", "c"] : List DiffID) ≠ []
    ∧ ((∃ k, 1 ≤ k ∧ k ≤ (["a", "b", "c"] : List DiffID).length ∧
         (getRefCalls (fun _ => true) ["a", "b", "c"]).1
           = (List.range k).map fun i =>
               (["a", "b", "c"] : List DiffID).take (i + 1))
       ∧ ((getRefCalls (fun _ => true) ["a", "b", "c"]).1
           = (List.range (["a", "b", "c"] : List DiffID).length).map fun i =>
               (["a", "b", "c"] : List DiffID).take (i + 1))) :=
  ⟨by decide, C7_getRef_parent_order (fun _ => true) ["a", "b", "c"]
    (by decide)⟩

end Moby
